import Mathlib

/-!
Shallow embedding of the capture engine of the rusty-duplication repository
(src/utils.rs, src/duplicate_context.rs, src/capturer/custom.rs,
src/capturer/simple.rs) together with theorems checking the natural-language
specification against it.

Machine integers are embedded as Nat/Int with explicit reduction modulo
2^32 where the Rust code computes in u32 (or casts i32 to u32).
-/

namespace RustyDuplication

/-- The u32 modulus, 2^32. -/
def u32Mod : Nat := 4294967296

/-- A Win32 RECT, as in DXGI_OUTPUT_DESC.DesktopCoordinates; the four
fields are i32 values, embedded as unbounded Int (range hypotheses are
added where theorems need them). -/
structure Rect where
  left : Int
  top : Int
  right : Int
  bottom : Int
deriving DecidableEq, Repr

/-- The part of DXGI_OUTPUT_DESC the capture engine reads. -/
structure OutputDesc where
  DesktopCoordinates : Rect
deriving DecidableEq, Repr

/-- utils.rs, OutputDescExt::width:
`(self.DesktopCoordinates.right - self.DesktopCoordinates.left) as u32`.
The i32 subtraction followed by the `as u32` cast acts on the mathematical
difference as reduction modulo 2^32. -/
def OutputDesc.width (d : OutputDesc) : Nat :=
  ((d.DesktopCoordinates.right - d.DesktopCoordinates.left) % (u32Mod : Int)).toNat

/-- utils.rs, OutputDescExt::height:
`(self.DesktopCoordinates.bottom - self.DesktopCoordinates.top) as u32`. -/
def OutputDesc.height (d : OutputDesc) : Nat :=
  ((d.DesktopCoordinates.bottom - d.DesktopCoordinates.top) % (u32Mod : Int)).toNat

/-- utils.rs, OutputDescExt::calc_buffer_size:
`(self.width() * self.height() * 4) as usize`, where both multiplications
are performed in u32 (left associated, each reducing modulo 2^32) before
the widening cast to usize. -/
def OutputDesc.calc_buffer_size (d : OutputDesc) : Nat :=
  d.width * d.height % u32Mod * 4 % u32Mod

/-- The part of DXGI_OUTDUPL_FRAME_INFO the capture engine reads.
LastPresentTime and LastMouseUpdateTime are LARGE_INTEGER (i64) values;
PointerShapeBufferSize is a u32. -/
structure FrameInfo where
  LastPresentTime : Int
  LastMouseUpdateTime : Int
  PointerShapeBufferSize : Nat
deriving DecidableEq, Repr

/-- utils.rs, FrameInfoExt::desktop_updated: `self.LastPresentTime > 0`. -/
def FrameInfo.desktop_updated (fi : FrameInfo) : Bool :=
  fi.LastPresentTime > 0

/-- utils.rs, FrameInfoExt::mouse_updated: `self.LastMouseUpdateTime == 0`. -/
def FrameInfo.mouse_updated (fi : FrameInfo) : Bool :=
  fi.LastMouseUpdateTime == 0

/-- The error kind raised by custom.rs check_buffer. -/
inductive Error where
  | InvalidBufferLength
deriving DecidableEq, Repr

/-- custom.rs, CustomCapturer::check_buffer, abstracted over the buffer
length: `if buffer.len() < calc_buffer_size() { Err(InvalidBufferLength) }
else { Ok(()) }`.  (custom.rs reads the required size off the duplication
descriptor via OutDuplDescExt::calc_buffer_size, whose source file is not
in the tree; per the spec the required size is width * height * 4 bytes,
the same formula as utils.rs calc_buffer_size, which is used here.) -/
def check_buffer (bufLen : Nat) (d : OutputDesc) : Except Error Unit :=
  if bufLen < d.calc_buffer_size then .error .InvalidBufferLength else .ok ()

/-- The 1920 x 1080 geometry of the spec's concrete scenario. -/
def desc1080 : OutputDesc := ⟨⟨0, 0, 1920, 1080⟩⟩

/-- A 65536 x 65536 geometry whose pixel-byte count is 2^34, overflowing u32. -/
def descBig : OutputDesc := ⟨⟨0, 0, 65536, 65536⟩⟩

/-- A geometry with right < left (right 50, left 100), wrapping the width. -/
def descNeg : OutputDesc := ⟨⟨100, 0, 50, 65536⟩⟩

/-- C1 (as stated) is false: calc_buffer_size is computed in u32, so at the
65536 x 65536 geometry it returns 0 while the true pixel-byte count is 2^34. -/
theorem C1_counterexample :
    OutputDesc.calc_buffer_size descBig = 0 ∧
    descBig.width * descBig.height * 4 = 17179869184 := by
  constructor
  · rfl
  · rfl

/-- C1 (amended): whenever the true pixel-byte count width * height * 4 fits
in u32, calc_buffer_size equals it exactly; in particular for the 1920 x 1080
geometry the result is 8294400, a buffer of exactly that length passes
check_buffer and one of length 8294399 fails with InvalidBufferLength. -/
theorem C1_amended :
    (∀ d : OutputDesc, d.width * d.height * 4 < u32Mod →
      d.calc_buffer_size = d.width * d.height * 4) ∧
    OutputDesc.calc_buffer_size desc1080 = 8294400 ∧
    check_buffer 8294400 desc1080 = .ok () ∧
    check_buffer 8294399 desc1080 = .error .InvalidBufferLength := by
  refine ⟨?_, rfl, rfl, rfl⟩
  intro d h
  have h4 : d.width * d.height ≤ d.width * d.height * 4 := by omega
  have h1 : d.width * d.height < u32Mod := by omega
  unfold OutputDesc.calc_buffer_size
  rw [Nat.mod_eq_of_lt h1, Nat.mod_eq_of_lt h]

/-- Witness for C1_amended at the concrete 1920 x 1080 geometry. -/
theorem C1_witness :
    desc1080.width * desc1080.height * 4 < u32Mod ∧
    OutputDesc.calc_buffer_size desc1080 = desc1080.width * desc1080.height * 4 :=
  ⟨by decide, C1_amended.1 desc1080 (by decide)⟩

/-- C8: mouse_updated() returns true exactly when LastMouseUpdateTime is 0,
hence false for every nonzero value. -/
theorem C8_mouse_updated :
    ∀ fi : FrameInfo, fi.mouse_updated = true ↔ fi.LastMouseUpdateTime = 0 := by
  intro fi
  simp [FrameInfo.mouse_updated]

/-- C9 (as stated) is false: LastPresentTime is a signed 64-bit value and
desktop_updated() is the comparison `> 0`, so the nonzero value -1 yields
false, while the claim says every nonzero value yields true. -/
theorem C9_counterexample :
    FrameInfo.desktop_updated ⟨-1, 0, 0⟩ = false ∧ (-1 : Int) ≠ 0 := by
  constructor
  · rfl
  · decide

/-- C9 (amended): desktop_updated() returns true exactly for positive
LastPresentTime values; it returns false at 0 and at every negative value. -/
theorem C9_amended :
    ∀ fi : FrameInfo, fi.desktop_updated = true ↔ 0 < fi.LastPresentTime := by
  intro fi
  simp [FrameInfo.desktop_updated]

/-- C10: calc_buffer_size equals (width * height * 4) mod 2^32, so it
undersizes the requirement whenever the true pixel-byte count reaches 2^32,
and width itself wraps to (right - left) + 2^32 whenever right < left
(for in-range i32 coordinates); height wraps likewise when bottom < top. -/
theorem C10_u32_wraparound :
    ∀ d : OutputDesc,
      d.calc_buffer_size = d.width * d.height * 4 % u32Mod ∧
      (u32Mod ≤ d.width * d.height * 4 →
        d.calc_buffer_size < d.width * d.height * 4) ∧
      (-2147483648 ≤ d.DesktopCoordinates.left → d.DesktopCoordinates.left < 2147483648 →
       -2147483648 ≤ d.DesktopCoordinates.right → d.DesktopCoordinates.right < 2147483648 →
       d.DesktopCoordinates.right < d.DesktopCoordinates.left →
        (d.width : Int) = d.DesktopCoordinates.right - d.DesktopCoordinates.left + u32Mod) ∧
      (-2147483648 ≤ d.DesktopCoordinates.top → d.DesktopCoordinates.top < 2147483648 →
       -2147483648 ≤ d.DesktopCoordinates.bottom → d.DesktopCoordinates.bottom < 2147483648 →
       d.DesktopCoordinates.bottom < d.DesktopCoordinates.top →
        (d.height : Int) = d.DesktopCoordinates.bottom - d.DesktopCoordinates.top + u32Mod) := by
  intro d
  have hmain : d.calc_buffer_size = d.width * d.height * 4 % u32Mod := by
    unfold OutputDesc.calc_buffer_size
    rw [Nat.mod_mul_mod]
  refine ⟨hmain, ?_, ?_, ?_⟩
  · intro hge
    have hlt : d.width * d.height * 4 % u32Mod < u32Mod := by
      have : 0 < u32Mod := by decide
      exact Nat.mod_lt _ this
    omega
  · intro h1 h2 h3 h4 h5
    unfold OutputDesc.width u32Mod
    omega
  · intro h1 h2 h3 h4 h5
    unfold OutputDesc.height u32Mod
    omega

/-- Witness for C10_u32_wraparound: at the 65536 x 65536 geometry the
computed size undershoots the true byte count, and at the right < left
geometry the width wraps. -/
theorem C10_witness :
    u32Mod ≤ descBig.width * descBig.height * 4 ∧
    OutputDesc.calc_buffer_size descBig < descBig.width * descBig.height * 4 ∧
    descNeg.DesktopCoordinates.right < descNeg.DesktopCoordinates.left ∧
    (descNeg.width : Int) =
      descNeg.DesktopCoordinates.right - descNeg.DesktopCoordinates.left + u32Mod :=
  ⟨by decide, (C10_u32_wraparound descBig).2.1 (by decide), by decide,
    (C10_u32_wraparound descNeg).2.2.1 (by decide) (by decide) (by decide)
      (by decide) (by decide)⟩

/-- duplicate_context.rs, the copy in capture_frame:
`ptr::copy_nonoverlapping(mapped_surface.pBits, dest, len)` copies exactly
`len` bytes starting at the mapped pointer into the destination.  The mapped
memory is embedded as a total byte function `bits`; the destination as a
byte list. -/
def copy_from_mapped (bits : Nat → Nat) (dest : List Nat) (len : Nat) : List Nat :=
  (List.range len).map bits ++ dest.drop len

/-- C4 (as stated) is false: the copy-out step copies exactly `len` bytes
regardless of the mapped surface's data size, so with a destination length of
2 and a surface of size 1 the byte at index 1 — beyond min(destLen, size) = 1 —
is still overwritten (here from 7 to 0). -/
theorem C4_counterexample :
    ¬ (∀ (bits : Nat → Nat) (surfaceLen : Nat) (dest : List Nat) (len i : Nat),
        min len surfaceLen ≤ i →
        (copy_from_mapped bits dest len)[i]? = dest[i]?) := by
  intro h
  have := h (fun _ => 0) 1 [7, 7] 2 1 (by decide)
  simp [copy_from_mapped, List.range_succ] at this

/-- C4 (amended): the copy-out step copies exactly destLen bytes — every
destination index below destLen receives the corresponding mapped byte and
every index at or above destLen is untouched — with no dependence on the
mapped surface's data size (the min bound of the claim holds only when
destLen does not exceed it). -/
theorem C4_amended :
    ∀ (bits : Nat → Nat) (dest : List Nat) (len : Nat), len ≤ dest.length →
      (copy_from_mapped bits dest len).length = dest.length ∧
      (∀ i, i < len → (copy_from_mapped bits dest len)[i]? = some (bits i)) ∧
      (∀ i, len ≤ i → (copy_from_mapped bits dest len)[i]? = dest[i]?) := by
  intro bits dest len hlen
  unfold copy_from_mapped
  refine ⟨?_, ?_, ?_⟩
  · simp
    omega
  · intro i hi
    rw [List.getElem?_append]
    simp [hi, List.getElem?_range]
  · intro i hi
    rw [List.getElem?_append]
    have hni : ¬ i < (List.map bits (List.range len)).length := by simp; omega
    rw [if_neg hni]
    simp only [List.length_map, List.length_range]
    rw [List.getElem?_drop]
    congr 1
    omega

/-- Witness for C4_amended at a concrete copy: destination [7, 7], length 2. -/
theorem C4_witness :
    2 ≤ ([7, 7] : List Nat).length ∧
    (copy_from_mapped (fun _ => 5) [7, 7] 2).length = 2 ∧
    (copy_from_mapped (fun _ => 5) [7, 7] 2)[0]? = some 5 :=
  ⟨by decide,
    (C4_amended (fun _ => 5) [7, 7] 2 (by decide)).1,
    (C4_amended (fun _ => 5) [7, 7] 2 (by decide)).2.1 0 (by decide)⟩

/-- The environment a single capture call runs in: the frame metadata the
compositor reports and the mapped frame bytes. -/
structure FrameEnv where
  frame_info : FrameInfo
  bits : Nat → Nat

/-- custom.rs, the CustomCapturer state the buffer claims depend on: the
borrowed destination buffer and the display descriptor its required size is
computed from. -/
structure CustomCapturer where
  buffer : List Nat
  desc : OutputDesc

/-- custom.rs, CustomCapturer::check_buffer on the capturer state. -/
def CustomCapturer.check_buffer (c : CustomCapturer) : Except Error Unit :=
  RustyDuplication.check_buffer c.buffer.length c.desc

/-- custom.rs, CustomCapturer::capture: forwards to the context's capture,
which (duplicate_context.rs capture_frame) copies buffer.len() bytes of
mapped frame data into the buffer and returns the frame metadata. -/
def CustomCapturer.capture (c : CustomCapturer) (env : FrameEnv) :
    Except Error FrameInfo × CustomCapturer :=
  (.ok env.frame_info,
    { c with buffer := copy_from_mapped env.bits c.buffer c.buffer.length })

/-- custom.rs, CustomCapturer::safe_capture:
`self.check_buffer()?; self.capture()`. -/
def CustomCapturer.safe_capture (c : CustomCapturer) (env : FrameEnv) :
    Except Error FrameInfo × CustomCapturer :=
  match c.check_buffer with
  | .error e => (.error e, c)
  | .ok _ => c.capture env

/-- C2: on every buffer strictly shorter than the required size for the
current geometry, safe_capture fails with the undersized-buffer error
(InvalidBufferLength) and returns the capturer unchanged — in particular the
destination buffer's contents are untouched. -/
theorem C2_safe_capture_undersized :
    ∀ (c : CustomCapturer) (env : FrameEnv),
      c.buffer.length < c.desc.calc_buffer_size →
      c.safe_capture env = (.error .InvalidBufferLength, c) := by
  intro c env h
  unfold CustomCapturer.safe_capture CustomCapturer.check_buffer check_buffer
  simp [h]

/-- A 2 x 2 geometry, requiring a 16-byte buffer. -/
def descSmall : OutputDesc := ⟨⟨0, 0, 2, 2⟩⟩

/-- A capturer over descSmall with a buffer one byte short of the 16 required. -/
def capSmall : CustomCapturer := ⟨List.replicate 15 0, descSmall⟩

/-- An arbitrary concrete capture environment. -/
def envZero : FrameEnv := ⟨⟨1, 1, 0⟩, fun _ => 9⟩

/-- Witness for C2 at the requiredBufferBytes - 1 scenario: 15 < 16. -/
theorem C2_witness :
    capSmall.buffer.length < capSmall.desc.calc_buffer_size ∧
    capSmall.safe_capture envZero = (.error .InvalidBufferLength, capSmall) :=
  ⟨by decide, C2_safe_capture_undersized capSmall envZero (by decide)⟩

/-- The success or failure of each fallible OS call made during one run of
duplicate_context.rs capture_frame, in program order: AcquireNextFrame, the
cast of the acquired resource to a texture, ReleaseFrame, the cast of the
readable texture to a surface, Map, Unmap.  (CopyResource and the byte copy
cannot fail.) -/
structure OsOracle where
  acquire_ok : Bool
  resource_cast_ok : Bool
  release_ok : Bool
  surface_cast_ok : Bool
  map_ok : Bool
  unmap_ok : Bool
deriving DecidableEq, Repr

/-- What a run of acquire_next_frame / capture_frame did before exiting:
whether AcquireNextFrame succeeded (the frame is held from that point until
released), how many times ReleaseFrame was invoked, whether Map succeeded
(the mapping is active from that point until unmapped), how many times Unmap
was invoked, and whether the run exited by an unwrap panic instead of
returning. -/
structure RunTrace where
  acquired : Bool
  release_count : Nat
  mapped : Bool
  unmap_count : Nat
  panicked : Bool
deriving DecidableEq, Repr

/-- duplicate_context.rs, acquire_next_frame, as a trace of its resource
events: `AcquireNextFrame(..).unwrap()`, then
`resource.unwrap().cast().unwrap()`, then the infallible CopyResource, then
`ReleaseFrame().unwrap()`, then `readable_texture.cast().unwrap()`.  Every
failing call is an unwrap panic that exits the function at that point. -/
def acquire_next_frame (o : OsOracle) : RunTrace :=
  if !o.acquire_ok then ⟨false, 0, false, 0, true⟩
  else if !o.resource_cast_ok then ⟨true, 0, false, 0, true⟩
  else if !o.release_ok then ⟨true, 1, false, 0, true⟩
  else if !o.surface_cast_ok then ⟨true, 1, false, 0, true⟩
  else ⟨true, 1, false, 0, false⟩

/-- duplicate_context.rs, capture_frame: acquire_next_frame, then
`frame.Map(..).unwrap()`, the infallible byte copy, then
`frame.Unmap().unwrap()`. -/
def capture_frame_run (o : OsOracle) : RunTrace :=
  let t := acquire_next_frame o
  if t.panicked then t
  else if !o.map_ok then { t with panicked := true }
  else
    let t2 := { t with mapped := true }
    if !o.unmap_ok then { t2 with unmap_count := 1, panicked := true }
    else { t2 with unmap_count := 1, panicked := false }

/-- C3 (as stated) is false: when AcquireNextFrame succeeds but the cast of
the acquired resource to a texture fails, the unwrap panic exits
capture_frame while the frame is still held — ReleaseFrame is never invoked. -/
theorem C3_counterexample :
    (capture_frame_run ⟨true, false, true, true, true, true⟩).acquired = true ∧
    (capture_frame_run ⟨true, false, true, true, true, true⟩).release_count = 0 ∧
    (capture_frame_run ⟨true, false, true, true, true, true⟩).panicked = true := by
  refine ⟨rfl, rfl, rfl⟩

/-- C3 (amended): in every run in which the cast of the acquired resource
succeeds, an acquired frame is released exactly once before the operation
exits (normally or by panic); independently, whenever the staging map was
established, Unmap is invoked exactly once before exit, and no run ever
releases more than once.  Only the resource-cast failure after a successful
acquire escapes with the frame still held. -/
theorem C3_amended :
    ∀ o : OsOracle,
      (o.resource_cast_ok = true →
        (capture_frame_run o).acquired = true → (capture_frame_run o).release_count = 1) ∧
      ((capture_frame_run o).mapped = true → (capture_frame_run o).unmap_count = 1) ∧
      (capture_frame_run o).release_count ≤ 1 := by
  intro o
  rcases o with ⟨a, rc, r, sc, m, u⟩
  cases a <;> cases rc <;> cases r <;> cases sc <;> cases m <;> cases u <;>
    exact ⟨fun h1 h2 => by first | rfl | exact absurd h1 (by decide) | exact absurd h2 (by decide),
      fun h => by first | rfl | exact absurd h (by decide),
      by decide⟩

/-- Witness for C3_amended at the all-successful run. -/
theorem C3_witness :
    (capture_frame_run ⟨true, true, true, true, true, true⟩).release_count = 1 ∧
    (capture_frame_run ⟨true, true, true, true, true, true⟩).unmap_count = 1 :=
  ⟨(C3_amended ⟨true, true, true, true, true, true⟩).1 rfl rfl,
    (C3_amended ⟨true, true, true, true, true, true⟩).2.1 rfl⟩

/-- The environment of one capture-with-pointer-shape call: the frame
metadata the compositor reports, and the new pointer-shape bytes when the
call produces one. -/
structure PointerEnv where
  frame_info : FrameInfo
  shape : Option (List Nat)
deriving DecidableEq, Repr

/-- Writing a pointer shape into a growable reused buffer: the shape bytes
land at the front, and any remaining previously-allocated capacity keeps its
old content. -/
def write_shape (shape : List Nat) (buf : List Nat) : List Nat :=
  shape ++ buf.drop shape.length

/-- Modelled from the spec: `DuplicationContext::capture_with_pointer_shape`
(its source file, duplication_context.rs, is not in the tree) captures a
frame and then, gated on the mouse-update flag of the frame metadata,
extracts any newly produced pointer shape into the caller-provided growable
buffer, returning the frame metadata, the optional shape info, and the
buffer's new content. -/
def ctx_capture_with_pointer_shape (env : PointerEnv) (buf : List Nat) :
    FrameInfo × Option (List Nat) × List Nat :=
  if env.frame_info.mouse_updated then
    match env.shape with
    | some sh => (env.frame_info, some sh, write_shape sh buf)
    | none => (env.frame_info, none, buf)
  else (env.frame_info, none, buf)

/-- simple.rs, the pointer-shape state of SimpleCapturer: the current
("pointer_shape_buffer") and previous ("last_pointer_shape_buffer") backing
buffers with their recorded valid sizes. -/
structure SimpleCapturer where
  pointer_shape_buffer : List Nat
  pointer_shape_buffer_size : Nat
  last_pointer_shape_buffer : List Nat
  last_pointer_shape_buffer_size : Nat
deriving DecidableEq, Repr

/-- simple.rs, SimpleCapturer::capture_with_pointer_shape: the context call
writes into last_pointer_shape_buffer, and if the frame reports a mouse
update the new valid length is recorded into last_pointer_shape_buffer_size
and then both buffers and both sizes are swapped. -/
def SimpleCapturer.capture_with_pointer_shape (s : SimpleCapturer) (env : PointerEnv) :
    SimpleCapturer × FrameInfo × Option (List Nat) :=
  let r := ctx_capture_with_pointer_shape env s.last_pointer_shape_buffer
  let frame_info := r.1
  let pointer_shape_info := r.2.1
  let s1 := { s with last_pointer_shape_buffer := r.2.2 }
  if frame_info.mouse_updated then
    let s2 := { s1 with last_pointer_shape_buffer_size := frame_info.PointerShapeBufferSize }
    let s3 := { s2 with pointer_shape_buffer := s2.last_pointer_shape_buffer,
                        last_pointer_shape_buffer := s2.pointer_shape_buffer }
    let s4 := { s3 with pointer_shape_buffer_size := s3.last_pointer_shape_buffer_size,
                        last_pointer_shape_buffer_size := s3.pointer_shape_buffer_size }
    (s4, frame_info, pointer_shape_info)
  else (s1, frame_info, pointer_shape_info)

/-- simple.rs, SimpleCapturer::pointer_shape_updated:
`size != last_size || buffer[..size] != last_buffer[..size]`. -/
def SimpleCapturer.pointer_shape_updated (s : SimpleCapturer) : Bool :=
  s.pointer_shape_buffer_size != s.last_pointer_shape_buffer_size ||
    s.pointer_shape_buffer.take s.pointer_shape_buffer_size !=
      s.last_pointer_shape_buffer.take s.pointer_shape_buffer_size

/-- simple.rs, Capturer::pointer_shape_buffer for SimpleCapturer:
`&self.pointer_shape_buffer[..self.pointer_shape_buffer_size]`. -/
def SimpleCapturer.pointer_shape_buffer_view (s : SimpleCapturer) : List Nat :=
  s.pointer_shape_buffer.take s.pointer_shape_buffer_size

/-- C5: capture_with_pointer_shape writes any newly produced shape into the
previous (last) slot, and exactly when the frame's mouse-update flag is set
it records the new valid length and swaps buffers and sizes, so that the
current slot afterwards holds the freshly written shape content with the new
length and the previous slot holds what was current before; when the flag is
not set the state is unchanged (nothing is written, swapped or re-recorded). -/
theorem C5_capture_swap_discipline :
    ∀ (env : PointerEnv) (s : SimpleCapturer),
      (s.capture_with_pointer_shape env).1 =
        if env.frame_info.mouse_updated then
          { pointer_shape_buffer :=
              (ctx_capture_with_pointer_shape env s.last_pointer_shape_buffer).2.2,
            pointer_shape_buffer_size := env.frame_info.PointerShapeBufferSize,
            last_pointer_shape_buffer := s.pointer_shape_buffer,
            last_pointer_shape_buffer_size := s.pointer_shape_buffer_size }
        else s := by
  intro env s
  unfold SimpleCapturer.capture_with_pointer_shape ctx_capture_with_pointer_shape
  cases hm : env.frame_info.mouse_updated <;> cases hsh : env.shape <;> simp [hm, hsh]

/-- A lemma relating equality of length-n prefixes to agreement at every
index below n, for lists at least n long. -/
theorem take_eq_take_iff_of_le (l1 l2 : List Nat) (n : Nat)
    (_h1 : n ≤ l1.length) (_h2 : n ≤ l2.length) :
    l1.take n = l2.take n ↔ ∀ i : Nat, i < n → l1[i]? = l2[i]? := by
  constructor
  · intro h i hi
    have hc := congrArg (fun l : List Nat => l[i]?) h
    simpa [List.getElem?_take, hi] using hc
  · intro h
    apply List.ext_getElem?
    intro i
    by_cases hi : i < n
    · simpa [List.getElem?_take, hi] using h i hi
    · have e1 : (l1.take n).length ≤ i := by simp [List.length_take]; omega
      have e2 : (l2.take n).length ≤ i := by simp [List.length_take]; omega
      rw [List.getElem?_eq_none e1, List.getElem?_eq_none e2]

/-- Prefix disagreement as the existence of a differing index. -/
theorem take_ne_take_iff_of_le (l1 l2 : List Nat) (n : Nat)
    (h1 : n ≤ l1.length) (h2 : n ≤ l2.length) :
    l1.take n ≠ l2.take n ↔ ∃ i, i < n ∧ l1[i]? ≠ l2[i]? := by
  rw [Ne, take_eq_take_iff_of_le l1 l2 n h1 h2]
  push_neg
  constructor
  · rintro ⟨i, hi, hne⟩
    exact ⟨i, hi, hne⟩
  · rintro ⟨i, hi, hne⟩
    exact ⟨i, hi, hne⟩

/-- C6: pointer_shape_updated() returns true exactly when the current
recorded size differs from the previous recorded size, or the sizes agree
and the first current-size bytes of the two buffers differ in at least one
position; it is false only when size and valid-length prefix both match
(stated for states whose recorded size does not exceed either backing
buffer, as in any state the Rust code can evaluate without panicking). -/
theorem C6_pointer_shape_updated :
    ∀ s : SimpleCapturer,
      s.pointer_shape_buffer_size ≤ s.pointer_shape_buffer.length →
      s.pointer_shape_buffer_size ≤ s.last_pointer_shape_buffer.length →
      (s.pointer_shape_updated = true ↔
        s.pointer_shape_buffer_size ≠ s.last_pointer_shape_buffer_size ∨
        (s.pointer_shape_buffer_size = s.last_pointer_shape_buffer_size ∧
          ∃ i, i < s.pointer_shape_buffer_size ∧
            s.pointer_shape_buffer[i]? ≠ s.last_pointer_shape_buffer[i]?)) := by
  intro s h1 h2
  unfold SimpleCapturer.pointer_shape_updated
  rw [Bool.or_eq_true, bne_iff_ne, bne_iff_ne,
    take_ne_take_iff_of_le _ _ _ h1 h2]
  constructor
  · rintro (h | h)
    · exact Or.inl h
    · by_cases hsz : s.pointer_shape_buffer_size = s.last_pointer_shape_buffer_size
      · exact Or.inr ⟨hsz, h⟩
      · exact Or.inl hsz
  · rintro (h | ⟨hsz, h⟩)
    · exact Or.inl h
    · exact Or.inr h

/-- A state whose current and previous one-byte shapes differ. -/
def sDiff : SimpleCapturer := ⟨[1], 1, [2], 1⟩

/-- Witness for C6_pointer_shape_updated at a concrete state. -/
theorem C6_witness :
    sDiff.pointer_shape_buffer_size ≤ sDiff.pointer_shape_buffer.length ∧
    (sDiff.pointer_shape_updated = true ↔
      sDiff.pointer_shape_buffer_size ≠ sDiff.last_pointer_shape_buffer_size ∨
      (sDiff.pointer_shape_buffer_size = sDiff.last_pointer_shape_buffer_size ∧
        ∃ i, i < sDiff.pointer_shape_buffer_size ∧
          sDiff.pointer_shape_buffer[i]? ≠ sDiff.last_pointer_shape_buffer[i]?)) :=
  ⟨by decide, C6_pointer_shape_updated sDiff (by decide) (by decide)⟩

/-- A freshly constructed SimpleCapturer pointer-shape state. -/
def capFresh : SimpleCapturer := ⟨[], 0, [], 0⟩

/-- A call environment reporting a mouse update producing the 3-byte shape
[1, 2, 3]. -/
def envShape : PointerEnv := ⟨⟨1, 0, 3⟩, some [1, 2, 3]⟩

/-- A call environment reporting no mouse update (LastMouseUpdateTime 5). -/
def envIdle : PointerEnv := ⟨⟨1, 5, 0⟩, none⟩

/-- C7 (as stated) is false: when the first call installs a new shape and the
second call reports no mouse update, the second call leaves the state intact,
so pointer_shape_updated() still returns true (current size 3 versus previous
size 0), not false as claimed. -/
theorem C7_counterexample :
    envIdle.frame_info.mouse_updated = false ∧
    SimpleCapturer.pointer_shape_updated
      ((SimpleCapturer.capture_with_pointer_shape
        (capFresh.capture_with_pointer_shape envShape).1 envIdle).1) = true := by
  exact ⟨rfl, rfl⟩

/-- C7 (amended): after two consecutive capture_with_pointer_shape calls in
which the second reports no mouse update, the second call leaves the state
unchanged, so pointer_shape_buffer() is byte-identical to what it was after
the first call and pointer_shape_updated() returns the same value as after
the first call (false only when the first call produced no size or prefix
change, not unconditionally). -/
theorem C7_amended :
    ∀ (env1 env2 : PointerEnv) (s : SimpleCapturer),
      env2.frame_info.mouse_updated = false →
      ((SimpleCapturer.capture_with_pointer_shape
          (s.capture_with_pointer_shape env1).1 env2).1 =
        (s.capture_with_pointer_shape env1).1) ∧
      (SimpleCapturer.pointer_shape_buffer_view
          ((SimpleCapturer.capture_with_pointer_shape
            (s.capture_with_pointer_shape env1).1 env2).1) =
        SimpleCapturer.pointer_shape_buffer_view ((s.capture_with_pointer_shape env1).1)) ∧
      (SimpleCapturer.pointer_shape_updated
          ((SimpleCapturer.capture_with_pointer_shape
            (s.capture_with_pointer_shape env1).1 env2).1) =
        SimpleCapturer.pointer_shape_updated ((s.capture_with_pointer_shape env1).1)) := by
  intro env1 env2 s h
  have key : ∀ t : SimpleCapturer, (t.capture_with_pointer_shape env2).1 = t := by
    intro t
    unfold SimpleCapturer.capture_with_pointer_shape ctx_capture_with_pointer_shape
    simp [h]
  rw [key]
  exact ⟨rfl, rfl, rfl⟩

/-- Witness for C7_amended at a concrete pair of calls. -/
theorem C7_witness :
    envIdle.frame_info.mouse_updated = false ∧
    (SimpleCapturer.capture_with_pointer_shape
        (capFresh.capture_with_pointer_shape envShape).1 envIdle).1 =
      (capFresh.capture_with_pointer_shape envShape).1 :=
  ⟨rfl, (C7_amended envShape envIdle capFresh rfl).1⟩

end RustyDuplication
